import Mathlib

/-!
Verification of the asynchronous test-case generation service
(`server/mock-testcase-generator.ts`, `server/gcs-service.ts`,
`server/routes.ts`) against its natural-language specification.

The TypeScript sources are shallowly embedded: pure functions become Lean
functions, the durable job store becomes an explicit job-id-indexed state,
and the fire-and-forget background task becomes a function from an injected
failure environment to the resulting store.
-/

namespace CDR

/-- Test case record, from the `TestCase` interface in `gcs-service.ts`. -/
structure TestCase where
  TestCaseID : String
  TestDescription : String
  TestSteps : String
  ExpectedResults : String
  TestCaseType : String
  Subtype : String
deriving DecidableEq

/-- Field escaping for the derived CSV artifact, from `GCSService.escapeCSV`:
a field containing a comma, double quote, or newline is wrapped in double
quotes with internal double quotes doubled; otherwise it is returned as is. -/
def escapeCSV (value : String) : String :=
  if value.contains ',' || value.contains '"' || value.contains '\n' then
    "\"" ++ value.replace "\"" "\"\"" ++ "\""
  else value

/-- Derived CSV artifact builder, from `GCSService.generateCSV`: a header
line followed by one comma-joined line per test case, all joined by
newlines. -/
def generateCSV (testCases : List TestCase) : String :=
  let headers := ["TestCaseID", "TestDescription", "TestSteps", "ExpectedResults", "TestCaseType", "Subtype"]
  let rows := testCases.map (fun tc =>
    [escapeCSV tc.TestCaseID, escapeCSV tc.TestDescription, escapeCSV tc.TestSteps,
     escapeCSV tc.ExpectedResults, escapeCSV tc.TestCaseType, escapeCSV tc.Subtype])
  let csvLines := String.intercalate "," headers :: rows.map (fun row => String.intercalate "," row)
  String.intercalate "\n" csvLines

/-- Modelled from the spec: the exact header row required by the download
artifact encoding in section 6 of the spec. -/
def csvSpecHeader : String := "TestCaseID,TestDescription,TestSteps,ExpectedResults,TestCaseType,Subtype"

/-- Modelled from the spec: standard CSV quoting, "any field containing a
comma, quote, or newline is wrapped in double quotes with internal quotes
doubled", all other fields verbatim. -/
def csvSpecField (v : String) : String :=
  if v.contains ',' || v.contains '"' || v.contains '\n' then
    "\"" ++ v.replace "\"" "\"\"" ++ "\""
  else v

/-- Modelled from the spec: one row per test case, its six fields in order,
separated by commas. -/
def csvSpecRow (tc : TestCase) : String :=
  csvSpecField tc.TestCaseID ++ "," ++ csvSpecField tc.TestDescription ++ "," ++
    csvSpecField tc.TestSteps ++ "," ++ csvSpecField tc.ExpectedResults ++ "," ++
    csvSpecField tc.TestCaseType ++ "," ++ csvSpecField tc.Subtype

/-- Modelled from the spec: the whole downloadable artifact, the header row
followed by one row per test case in order. -/
def csvSpecEncode (tcs : List TestCase) : String :=
  String.intercalate "\n" (csvSpecHeader :: tcs.map csvSpecRow)

theorem intercalate_six_fields (s a b c d e f : String) :
    String.intercalate s [a, b, c, d, e, f] = a ++ s ++ b ++ s ++ c ++ s ++ d ++ s ++ e ++ s ++ f := rfl

/-- The claim C9: for every list of test cases, the derived downloadable CSV
artifact begins with the exact header row followed by one row per test case
in order, with standard CSV quoting of fields containing a comma, double
quote or newline, and all other fields verbatim. -/
theorem c9_generateCSV_matches_spec_encoding (tcs : List TestCase) :
    generateCSV tcs = csvSpecEncode tcs := by
  unfold generateCSV csvSpecEncode
  simp only [List.map_map]
  congr 1

/-- A parsed CSV mapping row, from the `CSVRow` interface: in the source a
row is a JavaScript object built by assigning `row[header] = value` for each
non-empty value, so it is modelled as the ordered list of those
assignments. -/
abbrev CSVRow := List (String × String)

/-- Property read `row[k]` on a parsed row: the last assignment to the key
wins, and a key never assigned reads as absent. -/
def rowGet (row : CSVRow) (k : String) : Option String :=
  ((row.filter (fun p => p.1 == k)).getLast?).map (fun p => p.2)

/-- Statistics record, from the `StatisticalSummary` member of the
`TestCaseResponse` interface in `mock-testcase-generator.ts`. -/
structure StatisticalSummary where
  TotalTestCases : Nat
  TestCaseTypeBreakdown : List (String × Nat)
  SubtypeBreakdown : List (String × Nat)
  MappingRows : Nat
  UniqueAttributes : Nat
deriving DecidableEq

/-- One step of `breakdown[key] = (breakdown[key] || 0) + 1` on a JavaScript
record, modelled on the ordered association list of its entries: an existing
key is incremented in place, a new key is appended at the end. -/
def bump (m : List (String × Nat)) (k : String) : List (String × Nat) :=
  match m with
  | [] => [(k, 1)]
  | (k0, v) :: rest => if k0 = k then (k0, v + 1) :: rest else (k0, v) :: bump rest k

/-- Statistics computation, from `MockTestCaseGenerator.calculateStatistics`. -/
def calculateStatistics (testCases : List TestCase) (csvRows : List CSVRow) : StatisticalSummary :=
  let br := testCases.foldl (fun acc tc => (bump acc.1 tc.TestCaseType, bump acc.2 tc.Subtype)) ([], [])
  { TotalTestCases := testCases.length
    TestCaseTypeBreakdown := br.1
    SubtypeBreakdown := br.2
    MappingRows := csvRows.length
    UniqueAttributes :=
      (((csvRows.filterMap (fun r => rowGet r "FHIR_Attribute")).filter (fun v => v != "")).dedup).length }

/-- Sum of the counts of a breakdown record. -/
def sumVals (m : List (String × Nat)) : Nat := (m.map (fun p => p.2)).sum

theorem sumVals_bump (m : List (String × Nat)) (k : String) :
    sumVals (bump m k) = sumVals m + 1 := by
  induction m with
  | nil => simp [bump, sumVals]
  | cons p rest ih =>
    obtain ⟨k0, v⟩ := p
    by_cases h : k0 = k
    · simp [bump, h, sumVals]
      omega
    · simp only [bump, if_neg h, sumVals, List.map_cons, List.sum_cons]
      have := ih
      simp only [sumVals] at this
      omega

theorem breakdown_fold_sum (tcs : List TestCase) :
    ∀ a b : List (String × Nat),
      sumVals ((tcs.foldl (fun acc tc => (bump acc.1 tc.TestCaseType, bump acc.2 tc.Subtype)) (a, b)).1)
          = sumVals a + tcs.length ∧
      sumVals ((tcs.foldl (fun acc tc => (bump acc.1 tc.TestCaseType, bump acc.2 tc.Subtype)) (a, b)).2)
          = sumVals b + tcs.length := by
  induction tcs with
  | nil => intro a b; simp
  | cons tc rest ih =>
    intro a b
    have h := ih (bump a tc.TestCaseType) (bump b tc.Subtype)
    simp only [List.foldl_cons]
    constructor
    · rw [h.1, sumVals_bump]
      simp only [List.length_cons]
      omega
    · rw [h.2, sumVals_bump]
      simp only [List.length_cons]
      omega

/-- The claim C5: the persisted statistics of a job satisfy that the total
equals the number of test cases, and that both the type breakdown and the
subtype breakdown sum to the total. -/
theorem c5_statistics_invariants (testCases : List TestCase) (csvRows : List CSVRow) :
    (calculateStatistics testCases csvRows).TotalTestCases = testCases.length ∧
    sumVals (calculateStatistics testCases csvRows).TestCaseTypeBreakdown
        = (calculateStatistics testCases csvRows).TotalTestCases ∧
    sumVals (calculateStatistics testCases csvRows).SubtypeBreakdown
        = (calculateStatistics testCases csvRows).TotalTestCases := by
  have h := breakdown_fold_sum testCases ([] : List (String × Nat)) ([] : List (String × Nat))
  refine ⟨rfl, ?_, ?_⟩
  · simpa [calculateStatistics, sumVals] using h.1
  · simpa [calculateStatistics, sumVals] using h.2

/-- JavaScript `String.prototype.trim`: strip leading and trailing
whitespace. -/
def jsTrim (s : String) : String :=
  String.mk (((s.data.dropWhile Char.isWhitespace).reverse.dropWhile Char.isWhitespace).reverse)

/-- JavaScript `String.prototype.toLowerCase` on the ASCII inputs used by
the generator. -/
def jsToLower (s : String) : String :=
  String.mk (s.data.map Char.toLower)

/-- Helper for JavaScript `String.prototype.split` with a one-character
separator. -/
def splitCharAux (c : Char) : List Char → String → List String
  | [], cur => [cur]
  | x :: rest, cur =>
      if x = c then cur :: splitCharAux c rest "" else splitCharAux c rest (cur.push x)

/-- JavaScript `split('\n')`: never empty, the empty string splits to one
empty field. -/
def jsSplitNl (s : String) : List String :=
  splitCharAux '\n' s.data ""

/-- Character loop of `MockTestCaseGenerator.parseCSVLine`: a doubled quote
inside a quoted section yields a literal quote, a quote toggles the quoted
state, a comma outside quotes ends the current (trimmed) field, and any
other character is appended to the current field. -/
def parseCSVLineAux : List Char → Bool → String → List String
  | [], _, current => [jsTrim current]
  | '"' :: '"' :: rest, true, current => parseCSVLineAux rest true (current.push '"')
  | '"' :: rest, inQuotes, current => parseCSVLineAux rest (!inQuotes) current
  | ',' :: rest, false, current => jsTrim current :: parseCSVLineAux rest false ""
  | ch :: rest, inQuotes, current => parseCSVLineAux rest inQuotes (current.push ch)

/-- Field split of one CSV line, from `MockTestCaseGenerator.parseCSVLine`. -/
def parseCSVLine (line : String) : List String :=
  parseCSVLineAux line.data false ""

/-- Row object construction inside `MockTestCaseGenerator.parseCSV`: for
each header at position `i`, assign `row[header] = values[i]` when that
value exists and is non-empty. -/
def buildRow (headers values : List String) : CSVRow :=
  headers.enum.filterMap (fun p =>
    match values.get? p.1 with
    | some v => if v = "" then none else some (p.2, v)
    | none => none)

/-- CSV parsing, from `MockTestCaseGenerator.parseCSV`: trim the content,
split on newlines, read the header line, build one row object per further
line, and keep only rows with at least one assigned key. -/
def parseCSV (csvContent : String) : List CSVRow :=
  let lines := jsSplitNl (jsTrim csvContent)
  if lines.length = 0 then []
  else
    let headers := parseCSVLine (lines.headD "")
    let rows := (lines.drop 1).map (fun line => buildRow headers (parseCSVLine line))
    rows.filter (fun row => row.length > 0)

/-- JavaScript `x || d` defaulting on an optional string field: the default
is used when the field is absent or empty. -/
def jsOr (o : Option String) (d : String) : String :=
  match o with
  | some v => if v = "" then d else v
  | none => d

/-- Required-flag test from `generateTestCasesFromCSV`:
`row.Required?.toLowerCase() === 'yes' || row.Required?.toLowerCase() === 'true'`. -/
def isRequired (row : CSVRow) : Bool :=
  match rowGet row "Required" with
  | some v => jsToLower v == "yes" || jsToLower v == "true"
  | none => false

/-- Decimal rendering of the sequence counter with `padStart(3, '0')`. -/
def pad3 (n : Nat) : String :=
  let s := toString n
  if s.length < 3 then String.mk (List.replicate (3 - s.length) '0') ++ s else s

/-- Functional positive object literal pushed by `generateTestCasesFromCSV`. -/
def fpCase (batchNumber sourceField targetResource fhirAttribute transformRule dataType : String) (c : Nat) : TestCase :=
  { TestCaseID := "B_" ++ batchNumber ++ "_TC_" ++ pad3 c ++ "_functional_positive"
    TestDescription := "Validate successful mapping of " ++ sourceField ++ " to " ++ targetResource ++ "." ++ fhirAttribute
    TestSteps := "1. Parse input data containing " ++ sourceField ++ "\n2. Extract " ++ sourceField ++ " value\n3. Apply transformation: " ++ transformRule ++ "\n4. Map to FHIR " ++ targetResource ++ "." ++ fhirAttribute ++ "\n5. Validate FHIR resource structure"
    ExpectedResults := "FHIR " ++ targetResource ++ " resource created successfully with " ++ fhirAttribute ++ " populated correctly as " ++ dataType
    TestCaseType := "FUNCTIONAL"
    Subtype := "POSITIVE" }

/-- Functional negative object literal pushed by `generateTestCasesFromCSV`. -/
def fnCase (batchNumber sourceField targetResource fhirAttribute transformRule dataType : String) (c : Nat) : TestCase :=
  { TestCaseID := "B_" ++ batchNumber ++ "_TC_" ++ pad3 c ++ "_functional_negative"
    TestDescription := "Validate error handling for invalid " ++ sourceField ++ " data"
    TestSteps := "1. Parse input with invalid " ++ dataType ++ " for " ++ sourceField ++ "\n2. Attempt transformation: " ++ transformRule ++ "\n3. Validation fails for " ++ targetResource ++ "." ++ fhirAttribute ++ "\n4. System logs error with field name and value\n5. Return validation error response"
    ExpectedResults := "System returns validation error indicating invalid " ++ dataType ++ " for " ++ targetResource ++ "." ++ fhirAttribute
    TestCaseType := "FUNCTIONAL"
    Subtype := "NEGATIVE" }

/-- Edge case object literal for a required row. -/
def edgeReqCase (batchNumber sourceField targetResource fhirAttribute : String) (c : Nat) : TestCase :=
  { TestCaseID := "B_" ++ batchNumber ++ "_TC_" ++ pad3 c ++ "_edge_case"
    TestDescription := "Handle missing required field " ++ sourceField
    TestSteps := "1. Parse input with missing " ++ sourceField ++ "\n2. Validate required field check\n3. System detects missing " ++ targetResource ++ "." ++ fhirAttribute ++ "\n4. Log validation error\n5. Return appropriate error response"
    ExpectedResults := "System returns error indicating required field " ++ sourceField ++ " is missing from " ++ targetResource
    TestCaseType := "EDGE"
    Subtype := "NEGATIVE" }

/-- Edge case object literal for an optional row. -/
def edgeOptCase (batchNumber sourceField targetResource fhirAttribute : String) (c : Nat) : TestCase :=
  { TestCaseID := "B_" ++ batchNumber ++ "_TC_" ++ pad3 c ++ "_edge_case"
    TestDescription := "Handle optional field " ++ sourceField ++ " when empty"
    TestSteps := "1. Parse input with empty " ++ sourceField ++ "\n2. Check if field is optional\n3. Skip mapping for " ++ targetResource ++ "." ++ fhirAttribute ++ "\n4. Proceed with other mappings\n5. Create FHIR resource without this attribute"
    ExpectedResults := "FHIR " ++ targetResource ++ " resource created successfully with " ++ fhirAttribute ++ " omitted (optional field)"
    TestCaseType := "EDGE"
    Subtype := "POSITIVE" }

/-- Edge case object pushed for a row: the required branch or the optional
branch of the `if (isRequired)` in the source. -/
def edgeCase (batchNumber sourceField targetResource fhirAttribute : String) (required : Bool) (c : Nat) : TestCase :=
  if required then edgeReqCase batchNumber sourceField targetResource fhirAttribute c
  else edgeOptCase batchNumber sourceField targetResource fhirAttribute c

/-- Regression object literal pushed for every third row. -/
def regCase (batchNumber sourceField targetResource fhirAttribute : String) (c : Nat) : TestCase :=
  { TestCaseID := "B_" ++ batchNumber ++ "_TC_" ++ pad3 c ++ "_regression_positive"
    TestDescription := "Verify mapping consistency for " ++ sourceField ++ " after system updates"
    TestSteps := "1. Establish baseline mapping for " ++ sourceField ++ "\n2. Apply system update/patch\n3. Re-test " ++ sourceField ++ " to " ++ targetResource ++ "." ++ fhirAttribute ++ " mapping\n4. Compare results with baseline\n5. Validate no regression in mapping logic"
    ExpectedResults := sourceField ++ " to " ++ targetResource ++ "." ++ fhirAttribute ++ " mapping produces identical results to baseline; no regression detected"
    TestCaseType := "REGRESSION"
    Subtype := "POSITIVE" }

/-- Per-row body of the `forEach` loop in
`MockTestCaseGenerator.generateTestCasesFromCSV`: a functional positive
case, a functional negative case, an edge case whose subtype depends on the
required flag, and a regression case for every third row. `index` is the
0-based row index and `c` the current value of the sequence counter. -/
def rowCases (batchNumber : String) (row : CSVRow) (index : Nat) (c : Nat) : List TestCase :=
  let sourceField := jsOr (rowGet row "Source_Field") ("Field_" ++ toString (index + 1))
  let targetResource := jsOr (rowGet row "Target_FHIR_Resource") "Resource"
  let fhirAttribute := jsOr (rowGet row "FHIR_Attribute") "attribute"
  let transformRule := jsOr (rowGet row "Transformation_Rule") "Direct mapping"
  let dataType := jsOr (rowGet row "Data_Type") "string"
  [fpCase batchNumber sourceField targetResource fhirAttribute transformRule dataType c,
   fnCase batchNumber sourceField targetResource fhirAttribute transformRule dataType (c + 1),
   edgeCase batchNumber sourceField targetResource fhirAttribute (isRequired row) (c + 2)] ++
  (if (index + 1) % 3 = 0 then [regCase batchNumber sourceField targetResource fhirAttribute (c + 3)] else [])

/-- Loop of `generateTestCasesFromCSV` over the parsed rows, threading the
0-based row index and the 1-based sequence counter, which advances by the
number of test cases that each row pushed. -/
def genAux (batchNumber : String) : List CSVRow → Nat → Nat → List TestCase
  | [], _, _ => []
  | row :: rest, index, c =>
      rowCases batchNumber row index c ++
        genAux batchNumber rest (index + 1) (c + (if (index + 1) % 3 = 0 then 4 else 3))

/-- Test case generation, from `MockTestCaseGenerator.generateTestCasesFromCSV`:
the counter starts at 1 and the row index at 0. -/
def generateTestCasesFromCSV (csvRows : List CSVRow) (batchNumber : String) : List TestCase :=
  genAux batchNumber csvRows 0 1

theorem rowCases_length (batchNumber : String) (row : CSVRow) (index c : Nat) :
    (rowCases batchNumber row index c).length = (if (index + 1) % 3 = 0 then 4 else 3) := by
  by_cases h : (index + 1) % 3 = 0 <;> simp [rowCases, h]

/-- Count of regression rows: how many of the `n` consecutive 0-based row
indices starting at `idx` have a 1-based index divisible by 3. -/
def regCount : Nat → Nat → Nat
  | _, 0 => 0
  | idx, n + 1 => (if (idx + 1) % 3 = 0 then 1 else 0) + regCount (idx + 1) n

theorem genAux_length (batchNumber : String) :
    ∀ (rows : List CSVRow) (idx c : Nat),
      (genAux batchNumber rows idx c).length = 3 * rows.length + regCount idx rows.length := by
  intro rows
  induction rows with
  | nil => intro idx c; simp [genAux, regCount]
  | cons row rest ih =>
    intro idx c
    simp only [genAux, List.length_append, rowCases_length, ih, List.length_cons, regCount]
    by_cases h : (idx + 1) % 3 = 0 <;> simp [h] <;> ring

theorem regCount_eq (n : Nat) : ∀ idx : Nat, regCount idx n = (idx + n) / 3 - idx / 3 := by
  induction n with
  | zero => intro idx; simp [regCount]
  | succ m ih =>
    intro idx
    rw [regCount, ih (idx + 1)]
    by_cases h : (idx + 1) % 3 = 0 <;> simp [h] <;> omega

/-- The claim C10: the generator produces exactly `3 * n + n / 3` test cases
for `n` parsed mapping rows, and a CSV consisting of only a header row
parses to zero rows and yields zero test cases. -/
theorem c10_test_case_count (rows : List CSVRow) (batchNumber : String) :
    (generateTestCasesFromCSV rows batchNumber).length = 3 * rows.length + rows.length / 3 ∧
    parseCSV "Source_Field,Target_FHIR_Resource,FHIR_Attribute,Transformation_Rule,Data_Type,Required" = [] ∧
    generateTestCasesFromCSV
        (parseCSV "Source_Field,Target_FHIR_Resource,FHIR_Attribute,Transformation_Rule,Data_Type,Required")
        batchNumber = [] := by
  refine ⟨?_, ?_, ?_⟩
  · rw [generateTestCasesFromCSV, genAux_length, regCount_eq]
    omega
  · decide
  · rw [show parseCSV "Source_Field,Target_FHIR_Resource,FHIR_Attribute,Transformation_Rule,Data_Type,Required" = [] from by decide]
    rfl

/-- Decimal value of a digit character list, folded from an accumulator. -/
def valFrom (a : Nat) (l : List Char) : Nat :=
  l.foldl (fun acc c => 10 * acc + (c.toNat - 48)) a

theorem valFrom_append (a : Nat) (l1 l2 : List Char) :
    valFrom a (l1 ++ l2) = valFrom (valFrom a l1) l2 := by
  simp [valFrom, List.foldl_append]

theorem digitChar_val : ∀ m : Nat, m < 10 → (Nat.digitChar m).toNat - 48 = m := by
  decide

theorem digitChar_isDigit : ∀ m : Nat, m < 10 → (Nat.digitChar m).isDigit = true := by
  decide

theorem toDigitsCore_append (fuel : Nat) :
    ∀ (n : Nat) (ds : List Char),
      Nat.toDigitsCore 10 fuel n ds = Nat.toDigitsCore 10 fuel n [] ++ ds := by
  induction fuel with
  | zero => intro n ds; simp [Nat.toDigitsCore]
  | succ f ih =>
    intro n ds
    simp only [Nat.toDigitsCore]
    by_cases h : n / 10 = 0
    · simp [h]
    · simp only [if_neg h]
      rw [ih (n / 10) (Nat.digitChar (n % 10) :: ds), ih (n / 10) [Nat.digitChar (n % 10)]]
      simp

theorem toDigitsCore_fuel :
    ∀ (n f1 f2 : Nat), n < f1 → n < f2 →
      Nat.toDigitsCore 10 f1 n [] = Nat.toDigitsCore 10 f2 n [] := by
  intro n
  induction n using Nat.strong_induction_on with
  | _ n ih =>
    intro f1 f2 h1 h2
    match f1, f2 with
    | a + 1, b + 1 =>
      simp only [Nat.toDigitsCore]
      by_cases h : n / 10 = 0
      · simp [h]
      · simp only [if_neg h]
        have hn : 0 < n := by
          rcases Nat.eq_zero_or_pos n with h0 | h0
          · exact absurd (by simp [h0]) h
          · exact h0
        have hdiv : n / 10 < n := Nat.div_lt_self hn (by omega)
        rw [toDigitsCore_append a, toDigitsCore_append b,
          ih (n / 10) hdiv a b (by omega) (by omega)]

theorem valFrom_toDigits : ∀ n : Nat, valFrom 0 (Nat.toDigits 10 n) = n := by
  intro n
  induction n using Nat.strong_induction_on with
  | _ n ih =>
    rw [Nat.toDigits]
    simp only [Nat.toDigitsCore]
    by_cases h : n / 10 = 0
    · have hlt : n < 10 := by omega
      simp [h, valFrom, digitChar_val (n % 10) (Nat.mod_lt n (by omega) : n % 10 < 10)]
      omega
    · simp only [if_neg h]
      have hn : 0 < n := by
        rcases Nat.eq_zero_or_pos n with h0 | h0
        · exact absurd (by simp [h0]) h
        · exact h0
      have hdiv : n / 10 < n := Nat.div_lt_self hn (by omega)
      rw [toDigitsCore_append n, toDigitsCore_fuel (n / 10) n (n / 10 + 1) (by omega) (by omega)]
      rw [show Nat.toDigitsCore 10 (n / 10 + 1) (n / 10) [] = Nat.toDigits 10 (n / 10) from rfl]
      rw [valFrom_append, ih (n / 10) hdiv]
      simp only [valFrom, List.foldl_cons, List.foldl_nil]
      rw [digitChar_val (n % 10) (Nat.mod_lt n (by omega))]
      omega

theorem toDigits_all_digits :
    ∀ (fuel n : Nat) (ds : List Char), (∀ c ∈ ds, c.isDigit = true) →
      ∀ c ∈ Nat.toDigitsCore 10 fuel n ds, c.isDigit = true := by
  intro fuel
  induction fuel with
  | zero => intro n ds hds; simpa [Nat.toDigitsCore] using hds
  | succ f ih =>
    intro n ds hds
    have hd : (Nat.digitChar (n % 10)).isDigit = true :=
      digitChar_isDigit (n % 10) (Nat.mod_lt n (by omega))
    simp only [Nat.toDigitsCore]
    by_cases h : n / 10 = 0
    · simp only [if_pos h]
      intro c hc
      rcases List.mem_cons.mp hc with rfl | hc
      · exact hd
      · exact hds c hc
    · simp only [if_neg h]
      refine ih (n / 10) (Nat.digitChar (n % 10) :: ds) ?_
      intro c hc
      rcases List.mem_cons.mp hc with rfl | hc
      · exact hd
      · exact hds c hc

theorem valFrom_zeros : ∀ k : Nat, ∀ l : List Char,
    valFrom 0 (List.replicate k '0' ++ l) = valFrom 0 l := by
  intro k
  induction k with
  | zero => intro l; simp
  | succ m ih =>
    intro l
    simp only [List.replicate_succ, List.cons_append]
    show valFrom (10 * 0 + ('0'.toNat - 48)) (List.replicate m '0' ++ l) = valFrom 0 l
    rw [show 10 * 0 + ('0'.toNat - 48) = 0 from by decide]
    exact ih l

theorem pad3_val (n : Nat) : valFrom 0 (pad3 n).data = n := by
  unfold pad3
  by_cases h : (toString n).length < 3
  · simp only [if_pos h, String.data_append]
    rw [valFrom_zeros]
    exact valFrom_toDigits n
  · simp only [if_neg h]
    exact valFrom_toDigits n

theorem pad3_all_digits (n : Nat) : ∀ c ∈ (pad3 n).data, c.isDigit = true := by
  unfold pad3
  by_cases h : (toString n).length < 3
  · simp only [if_pos h, String.data_append]
    intro c hc
    rcases List.mem_append.mp hc with hc | hc
    · have : c = '0' := List.eq_of_mem_replicate hc
      subst this
      decide
    · exact toDigits_all_digits (n + 1) n [] (by simp) c hc
  · simp only [if_neg h]
    intro c hc
    exact toDigits_all_digits (n + 1) n [] (by simp) c hc

/-- Tag actually used at the end of a generated test case id: the
lowercased type and subtype joined by an underscore, except that every EDGE
case uses the literal tag `edge_case`. -/
def idTag (tc : TestCase) : String :=
  if tc.TestCaseType = "EDGE" then "edge_case"
  else jsToLower tc.TestCaseType ++ "_" ++ jsToLower tc.Subtype

/-- Generated test case id layout: the batch number, the zero-padded
sequence number, and the tag. -/
def mkTcId (batchNumber : String) (n : Nat) (tag : String) : String :=
  "B_" ++ batchNumber ++ "_TC_" ++ pad3 n ++ "_" ++ tag

/-- All ids of the list follow the generated layout with consecutive
sequence numbers starting at `c`. -/
def IdsFrom (batchNumber : String) (c : Nat) (l : List TestCase) : Prop :=
  ∀ (i : Nat) (h : i < l.length),
    (l.get ⟨i, h⟩).TestCaseID = mkTcId batchNumber (c + i) (idTag (l.get ⟨i, h⟩))

theorem idTag_fpCase (b sf tr fa tru dt : String) (n : Nat) :
    idTag (fpCase b sf tr fa tru dt n) = "functional_positive" := rfl

theorem idTag_fnCase (b sf tr fa tru dt : String) (n : Nat) :
    idTag (fnCase b sf tr fa tru dt n) = "functional_negative" := rfl

theorem idTag_edgeReqCase (b sf tr fa : String) (n : Nat) :
    idTag (edgeReqCase b sf tr fa n) = "edge_case" := rfl

theorem idTag_edgeOptCase (b sf tr fa : String) (n : Nat) :
    idTag (edgeOptCase b sf tr fa n) = "edge_case" := rfl

theorem idTag_regCase (b sf tr fa : String) (n : Nat) :
    idTag (regCase b sf tr fa n) = "regression_positive" := rfl

theorem idTag_edgeCase (b sf tr fa : String) (req : Bool) (n : Nat) :
    idTag (edgeCase b sf tr fa req n) = "edge_case" := by
  cases req <;> rfl

theorem edgeCase_id (b sf tr fa : String) (req : Bool) (n : Nat) :
    (edgeCase b sf tr fa req n).TestCaseID = "B_" ++ b ++ "_TC_" ++ pad3 n ++ "_edge_case" := by
  cases req <;> rfl

theorem mkTcId_fp (b : String) (n : Nat) :
    mkTcId b n "functional_positive" = "B_" ++ b ++ "_TC_" ++ pad3 n ++ "_functional_positive" := by
  unfold mkTcId
  rw [String.append_assoc]
  exact congrArg (fun t => "B_" ++ b ++ "_TC_" ++ pad3 n ++ t) (by decide)

theorem mkTcId_fn (b : String) (n : Nat) :
    mkTcId b n "functional_negative" = "B_" ++ b ++ "_TC_" ++ pad3 n ++ "_functional_negative" := by
  unfold mkTcId
  rw [String.append_assoc]
  exact congrArg (fun t => "B_" ++ b ++ "_TC_" ++ pad3 n ++ t) (by decide)

theorem mkTcId_edge (b : String) (n : Nat) :
    mkTcId b n "edge_case" = "B_" ++ b ++ "_TC_" ++ pad3 n ++ "_edge_case" := by
  unfold mkTcId
  rw [String.append_assoc]
  exact congrArg (fun t => "B_" ++ b ++ "_TC_" ++ pad3 n ++ t) (by decide)

theorem mkTcId_reg (b : String) (n : Nat) :
    mkTcId b n "regression_positive" = "B_" ++ b ++ "_TC_" ++ pad3 n ++ "_regression_positive" := by
  unfold mkTcId
  rw [String.append_assoc]
  exact congrArg (fun t => "B_" ++ b ++ "_TC_" ++ pad3 n ++ t) (by decide)

theorem IdsFrom_append {batch : String} {c : Nat} {l1 l2 : List TestCase}
    (h1 : IdsFrom batch c l1) (h2 : IdsFrom batch (c + l1.length) l2) :
    IdsFrom batch c (l1 ++ l2) := by
  intro i h
  by_cases hi : i < l1.length
  · rw [List.get_append_left l1 l2 hi]
    exact h1 i hi
  · have hge : l1.length ≤ i := Nat.le_of_not_lt hi
    have hlt : i - l1.length < l2.length := by
      have := h
      simp only [List.length_append] at this
      omega
    have hget : (l1 ++ l2).get ⟨i, h⟩ = l2.get ⟨i - l1.length, hlt⟩ := by
      simp only [List.get_eq_getElem]
      exact List.getElem_append_right hge
    rw [hget]
    have := h2 (i - l1.length) hlt
    rw [this]
    congr 1
    omega

theorem block_ids3 (batch sf tr fa tru dt : String) (req : Bool) (c : Nat) :
    IdsFrom batch c
      [fpCase batch sf tr fa tru dt c, fnCase batch sf tr fa tru dt (c + 1),
       edgeCase batch sf tr fa req (c + 2)] := by
  intro i h
  simp only [List.length_cons, List.length_nil] at h
  interval_cases i <;>
    simp only [List.get_eq_getElem, List.getElem_cons_zero, List.getElem_cons_succ]
  · rw [idTag_fpCase, mkTcId_fp]; rfl
  · rw [idTag_fnCase, mkTcId_fn]; rfl
  · rw [idTag_edgeCase, mkTcId_edge, edgeCase_id]

theorem block_ids4 (batch sf tr fa tru dt : String) (req : Bool) (c : Nat) :
    IdsFrom batch c
      [fpCase batch sf tr fa tru dt c, fnCase batch sf tr fa tru dt (c + 1),
       edgeCase batch sf tr fa req (c + 2), regCase batch sf tr fa (c + 3)] := by
  intro i h
  simp only [List.length_cons, List.length_nil] at h
  interval_cases i <;>
    simp only [List.get_eq_getElem, List.getElem_cons_zero, List.getElem_cons_succ]
  · rw [idTag_fpCase, mkTcId_fp]; rfl
  · rw [idTag_fnCase, mkTcId_fn]; rfl
  · rw [idTag_edgeCase, mkTcId_edge, edgeCase_id]
  · rw [idTag_regCase, mkTcId_reg]; rfl

theorem rowCases_ids (batch : String) (row : CSVRow) (idx c : Nat) :
    IdsFrom batch c (rowCases batch row idx c) := by
  unfold rowCases
  dsimp only
  by_cases h3 : (idx + 1) % 3 = 0
  · rw [if_pos h3]
    exact block_ids4 batch _ _ _ _ _ (isRequired row) c
  · rw [if_neg h3]
    exact block_ids3 batch _ _ _ _ _ (isRequired row) c

theorem genAux_ids (batch : String) :
    ∀ (rows : List CSVRow) (idx c : Nat), IdsFrom batch c (genAux batch rows idx c) := by
  intro rows
  induction rows with
  | nil =>
    intro idx c i h
    simp [genAux] at h
  | cons row rest ih =>
    intro idx c
    show IdsFrom batch c (rowCases batch row idx c ++ genAux batch rest (idx + 1) (c + _))
    refine IdsFrom_append (rowCases_ids batch row idx c) ?_
    rw [rowCases_length]
    exact ih (idx + 1) (c + if (idx + 1) % 3 = 0 then 4 else 3)

/-- Sequence number recovered from a generated id by reading the digit run
that follows a prefix of the given length. -/
def decodeSeq (pfx : Nat) (s : String) : Nat :=
  valFrom 0 ((s.data.drop pfx).takeWhile (fun ch => ch.isDigit))

theorem takeWhile_digits_append (l1 l2 : List Char) (h : ∀ ch ∈ l1, ch.isDigit = true) :
    (l1 ++ '_' :: l2).takeWhile (fun ch => ch.isDigit) = l1 := by
  induction l1 with
  | nil =>
    rw [List.nil_append, List.takeWhile_cons, if_neg (by decide)]
  | cons a rest ih =>
    rw [List.cons_append, List.takeWhile_cons,
      if_pos (h a (List.mem_cons_self a rest)),
      ih (fun ch hc => h ch (List.mem_cons_of_mem a hc))]

theorem decode_mkTcId (batch : String) (n : Nat) (tag : String) :
    decodeSeq ("B_" ++ batch ++ "_TC_").length (mkTcId batch n tag) = n := by
  unfold decodeSeq mkTcId
  have hdata : ("B_" ++ batch ++ "_TC_" ++ pad3 n ++ "_" ++ tag).data
      = ("B_" ++ batch ++ "_TC_").data ++ ((pad3 n).data ++ '_' :: tag.data) := by
    simp only [String.data_append, List.append_assoc]
    rfl
  rw [hdata]
  rw [show ("B_" ++ batch ++ "_TC_").length = ("B_" ++ batch ++ "_TC_").data.length from rfl]
  rw [List.drop_left]
  rw [takeWhile_digits_append _ _ (pad3_all_digits n)]
  exact pad3_val n

theorem ids_nodup (batch : String) (c : Nat) (l : List TestCase) (hf : IdsFrom batch c l) :
    (l.map (fun tc => tc.TestCaseID)).Nodup := by
  rw [List.nodup_iff_injective_get]
  intro i j hij
  have hmap : ∀ (k : Fin (l.map (fun tc => tc.TestCaseID)).length),
      (l.map (fun tc => tc.TestCaseID)).get k
        = mkTcId batch (c + k.1) (idTag (l.get ⟨k.1, by simpa using k.2⟩)) := by
    intro k
    rw [List.get_map]
    exact hf k.1 (by simpa using k.2)
  have h1 := hmap i
  have h2 := hmap j
  rw [h1, h2] at hij
  have := congrArg (decodeSeq ("B_" ++ batch ++ "_TC_").length) hij
  rw [decode_mkTcId, decode_mkTcId] at this
  exact Fin.ext (by omega)

/-- The claim C6 counterexample: for a single required mapping row the third
generated test case has type EDGE and subtype NEGATIVE but its id ends in
the literal `edge_case`, not in the lowercased type and subtype
`edge_negative` that the claim requires. -/
theorem c6_counterexample_edge_id :
    ((generateTestCasesFromCSV
        [[("Source_Field", "name"), ("Target_FHIR_Resource", "Patient"), ("FHIR_Attribute", "name"),
          ("Transformation_Rule", "Direct"), ("Data_Type", "string"), ("Required", "Yes")]]
        "001").get? 2).map (fun tc => tc.TestCaseID) = some "B_001_TC_003_edge_case" ∧
    ((generateTestCasesFromCSV
        [[("Source_Field", "name"), ("Target_FHIR_Resource", "Patient"), ("FHIR_Attribute", "name"),
          ("Transformation_Rule", "Direct"), ("Data_Type", "string"), ("Required", "Yes")]]
        "001").get? 2).map (fun tc => tc.TestCaseType) = some "EDGE" ∧
    ((generateTestCasesFromCSV
        [[("Source_Field", "name"), ("Target_FHIR_Resource", "Patient"), ("FHIR_Attribute", "name"),
          ("Transformation_Rule", "Direct"), ("Data_Type", "string"), ("Required", "Yes")]]
        "001").get? 2).map (fun tc => tc.Subtype) = some "NEGATIVE" ∧
    "B_001_TC_003_edge_case" ≠ "B_001_TC_003_" ++ jsToLower "EDGE" ++ "_" ++ jsToLower "NEGATIVE" := by
  refine ⟨?_, ?_, ?_, ?_⟩ <;> decide

/-- The claim C6 as amended: every generated TestCase id is
`B_{batch_number}_TC_{sequence:03d}_{tag}` where the tag is the lowercased
type and subtype joined by an underscore for FUNCTIONAL and REGRESSION
cases but the literal `edge_case` for EDGE cases; the sequence numbers
increase by one from 1 in generation order, and all ids are unique within
one job. -/
theorem c6_amended_id_format (rows : List CSVRow) (batchNumber : String) :
    (∀ (i : Nat) (h : i < (generateTestCasesFromCSV rows batchNumber).length),
        ((generateTestCasesFromCSV rows batchNumber).get ⟨i, h⟩).TestCaseID
          = mkTcId batchNumber (1 + i) (idTag ((generateTestCasesFromCSV rows batchNumber).get ⟨i, h⟩))) ∧
    ((generateTestCasesFromCSV rows batchNumber).map (fun tc => tc.TestCaseID)).Nodup := by
  constructor
  · intro i h
    exact genAux_ids batchNumber rows 0 1 i h
  · exact ids_nodup batchNumber 1 _ (genAux_ids batchNumber rows 0 1)

/-- Witness instantiating the amended C6 claim on a concrete job. -/
theorem c6_amended_id_format_witness :
    ((generateTestCasesFromCSV [[("Required", "Yes")]] "7").get ⟨2, by decide⟩).TestCaseID
      = mkTcId "7" (1 + 2) (idTag ((generateTestCasesFromCSV [[("Required", "Yes")]] "7").get ⟨2, by decide⟩)) ∧
    ((generateTestCasesFromCSV [[("Required", "Yes")]] "7").map (fun tc => tc.TestCaseID)).Nodup :=
  ⟨(c6_amended_id_format [[("Required", "Yes")]] "7").1 2 (by decide),
   (c6_amended_id_format [[("Required", "Yes")]] "7").2⟩

theorem fpCase_type (b sf tr fa tru dt : String) (n : Nat) :
    (fpCase b sf tr fa tru dt n).TestCaseType = "FUNCTIONAL" := rfl

theorem fpCase_subtype (b sf tr fa tru dt : String) (n : Nat) :
    (fpCase b sf tr fa tru dt n).Subtype = "POSITIVE" := rfl

theorem fnCase_type (b sf tr fa tru dt : String) (n : Nat) :
    (fnCase b sf tr fa tru dt n).TestCaseType = "FUNCTIONAL" := rfl

theorem fnCase_subtype (b sf tr fa tru dt : String) (n : Nat) :
    (fnCase b sf tr fa tru dt n).Subtype = "NEGATIVE" := rfl

theorem regCase_type (b sf tr fa : String) (n : Nat) :
    (regCase b sf tr fa n).TestCaseType = "REGRESSION" := rfl

theorem regCase_subtype (b sf tr fa : String) (n : Nat) :
    (regCase b sf tr fa n).Subtype = "POSITIVE" := rfl

theorem edgeCase_type (b sf tr fa : String) (req : Bool) (n : Nat) :
    (edgeCase b sf tr fa req n).TestCaseType = "EDGE" := by
  cases req <;> rfl

theorem edgeCase_subtype (b sf tr fa : String) (req : Bool) (n : Nat) :
    (edgeCase b sf tr fa req n).Subtype = if req then "NEGATIVE" else "POSITIVE" := by
  cases req <;> rfl

theorem rowCases_countP_fp (b : String) (row : CSVRow) (idx c : Nat) :
    (rowCases b row idx c).countP
      (fun tc => tc.TestCaseType == "FUNCTIONAL" && tc.Subtype == "POSITIVE") = 1 := by
  unfold rowCases
  dsimp only
  cases hreq : isRequired row <;> by_cases h3 : (idx + 1) % 3 = 0 <;>
    (first | rw [if_pos h3] | rw [if_neg h3]) <;>
    simp only [List.countP_append, List.countP_cons, List.countP_nil,
      fpCase_type, fpCase_subtype, fnCase_type, fnCase_subtype,
      edgeCase_type, edgeCase_subtype, regCase_type, regCase_subtype] <;>
    simp

theorem rowCases_countP_fn (b : String) (row : CSVRow) (idx c : Nat) :
    (rowCases b row idx c).countP
      (fun tc => tc.TestCaseType == "FUNCTIONAL" && tc.Subtype == "NEGATIVE") = 1 := by
  unfold rowCases
  dsimp only
  cases hreq : isRequired row <;> by_cases h3 : (idx + 1) % 3 = 0 <;>
    (first | rw [if_pos h3] | rw [if_neg h3]) <;>
    simp only [List.countP_append, List.countP_cons, List.countP_nil,
      fpCase_type, fpCase_subtype, fnCase_type, fnCase_subtype,
      edgeCase_type, edgeCase_subtype, regCase_type, regCase_subtype] <;>
    simp

theorem rowCases_countP_edge (b : String) (row : CSVRow) (idx c : Nat) :
    (rowCases b row idx c).countP (fun tc => tc.TestCaseType == "EDGE") = 1 := by
  unfold rowCases
  dsimp only
  cases hreq : isRequired row <;> by_cases h3 : (idx + 1) % 3 = 0 <;>
    (first | rw [if_pos h3] | rw [if_neg h3]) <;>
    simp only [List.countP_append, List.countP_cons, List.countP_nil,
      fpCase_type, fnCase_type, edgeCase_type, regCase_type] <;>
    simp

theorem rowCases_edge_subtype (b : String) (row : CSVRow) (idx c : Nat) :
    ∀ tc ∈ rowCases b row idx c, tc.TestCaseType = "EDGE" →
      tc.Subtype = (if isRequired row then "NEGATIVE" else "POSITIVE") := by
  unfold rowCases
  dsimp only
  by_cases h3 : (idx + 1) % 3 = 0
  · rw [if_pos h3]
    intro tc htc hty
    simp only [List.mem_append, List.mem_cons, List.not_mem_nil, or_false] at htc
    rcases htc with (rfl | rfl | rfl) | rfl
    · rw [fpCase_type] at hty
      exact absurd hty (by decide)
    · rw [fnCase_type] at hty
      exact absurd hty (by decide)
    · rw [edgeCase_subtype]
    · rw [regCase_type] at hty
      exact absurd hty (by decide)
  · rw [if_neg h3]
    intro tc htc hty
    simp only [List.append_nil, List.mem_cons, List.not_mem_nil, or_false] at htc
    rcases htc with rfl | rfl | rfl
    · rw [fpCase_type] at hty
      exact absurd hty (by decide)
    · rw [fnCase_type] at hty
      exact absurd hty (by decide)
    · rw [edgeCase_subtype]

theorem genAux_countP_eq (b : String) (p : TestCase → Bool)
    (hp : ∀ (row : CSVRow) (idx c : Nat), (rowCases b row idx c).countP p = 1) :
    ∀ (rows : List CSVRow) (idx c : Nat), (genAux b rows idx c).countP p = rows.length := by
  intro rows
  induction rows with
  | nil => intro idx c; simp [genAux]
  | cons row rest ih =>
    intro idx c
    simp only [genAux, List.countP_append, hp, ih, List.length_cons]
    omega

/-- The claim C7: each parsed mapping row yields exactly one
FUNCTIONAL/POSITIVE case, exactly one FUNCTIONAL/NEGATIVE case, and exactly
one EDGE case whose subtype is NEGATIVE when the row's Required flag is
yes/true and POSITIVE otherwise; accordingly a job with `n` rows has `n`
cases of each of those kinds overall. -/
theorem c7_per_row_case_production (batchNumber : String) (rows : List CSVRow) :
    (∀ (row : CSVRow) (index c : Nat),
      ((rowCases batchNumber row index c).countP
          (fun tc => tc.TestCaseType == "FUNCTIONAL" && tc.Subtype == "POSITIVE")) = 1 ∧
      ((rowCases batchNumber row index c).countP
          (fun tc => tc.TestCaseType == "FUNCTIONAL" && tc.Subtype == "NEGATIVE")) = 1 ∧
      ((rowCases batchNumber row index c).countP (fun tc => tc.TestCaseType == "EDGE")) = 1 ∧
      (∀ tc ∈ rowCases batchNumber row index c, tc.TestCaseType = "EDGE" →
          tc.Subtype = (if isRequired row then "NEGATIVE" else "POSITIVE"))) ∧
    ((generateTestCasesFromCSV rows batchNumber).countP
        (fun tc => tc.TestCaseType == "FUNCTIONAL" && tc.Subtype == "POSITIVE")) = rows.length ∧
    ((generateTestCasesFromCSV rows batchNumber).countP
        (fun tc => tc.TestCaseType == "FUNCTIONAL" && tc.Subtype == "NEGATIVE")) = rows.length ∧
    ((generateTestCasesFromCSV rows batchNumber).countP
        (fun tc => tc.TestCaseType == "EDGE")) = rows.length := by
  refine ⟨fun row index c => ⟨rowCases_countP_fp batchNumber row index c,
    rowCases_countP_fn batchNumber row index c, rowCases_countP_edge batchNumber row index c,
    rowCases_edge_subtype batchNumber row index c⟩, ?_, ?_, ?_⟩
  · exact genAux_countP_eq batchNumber _ (rowCases_countP_fp batchNumber) rows 0 1
  · exact genAux_countP_eq batchNumber _ (rowCases_countP_fn batchNumber) rows 0 1
  · exact genAux_countP_eq batchNumber _ (rowCases_countP_edge batchNumber) rows 0 1

/-- Witness instantiating the C7 claim for one required mapping row. -/
theorem c7_per_row_case_production_witness :
    ((rowCases "001" [("Required", "Yes")] 0 1).countP
        (fun tc => tc.TestCaseType == "EDGE")) = 1 ∧
    ((rowCases "001" [("Required", "Yes")] 0 1).get ⟨2, by decide⟩).Subtype
      = (if isRequired [("Required", "Yes")] then "NEGATIVE" else "POSITIVE") :=
  ⟨((c7_per_row_case_production "001" []).1 [("Required", "Yes")] 0 1).2.2.1,
   ((c7_per_row_case_production "001" []).1 [("Required", "Yes")] 0 1).2.2.2
      ((rowCases "001" [("Required", "Yes")] 0 1).get ⟨2, by decide⟩)
      (List.get_mem _ _ _) (by decide)⟩

/-- Job status record, from the `StatusData` interface in `gcs-service.ts`. -/
structure StatusData where
  status : String
  created_at : String
  updated_at : String
  error : Option String
deriving DecidableEq

/-- Submission parameters, from the `MetadataParams` interface. -/
structure MetadataParams where
  batch_number : Option String
  user_id : Option String
  csv_length : Option Nat
  github_url : Option String
  session_id : Option String
  batch_size : Option Nat
deriving DecidableEq

/-- Persisted metadata object, from `GCSService.writeMetadata`. -/
structure MetadataRecord where
  params : MetadataParams
  created_at : String
deriving DecidableEq

/-- Persisted results bundle, from the `TestCaseResponse` interface. -/
structure ResultsData where
  TestCases : List TestCase
  StatisticalSummary : CDR.StatisticalSummary
  github_url : Option String
  generated_at : String
deriving DecidableEq

/-- The five artifacts stored under `jobs/{id}/` for one job. -/
structure JobArtifacts where
  statusFile : Option StatusData
  inputCSV : Option String
  metadataFile : Option MetadataRecord
  resultsFile : Option ResultsData
  outputCSV : Option String
deriving DecidableEq

/-- A job directory with nothing written yet. -/
def emptyArtifacts : JobArtifacts := ⟨none, none, none, none, none⟩

/-- The durable job store: artifacts keyed by job id. -/
def Store := String → JobArtifacts

/-- Point update of one job's artifacts. -/
def Store.update (store : Store) (jobId : String) (f : JobArtifacts → JobArtifacts) : Store :=
  fun j => if j = jobId then f (store j) else store j

/-- Status read, from `GCSService.readJobStatus`: the stored record or a
not-found signal. -/
def readJobStatus (store : Store) (jobId : String) : Option StatusData :=
  (store jobId).statusFile

/-- Results read, from `GCSService.readResults`. -/
def readResults (store : Store) (jobId : String) : Option ResultsData :=
  (store jobId).resultsFile

/-- Status write, from `GCSService.writeJobStatus`: `created_at` is taken
from the existing record when present and non-empty (JavaScript `||`),
`updated_at` is always the current time, and the error message is stored
only when non-empty (JavaScript `error && { error }`). -/
def writeJobStatus (store : Store) (jobId : String) (status : String)
    (error : Option String) (now : String) : Store :=
  let existingStatus := readJobStatus store jobId
  let createdAt :=
    match existingStatus with
    | some st => if st.created_at = "" then now else st.created_at
    | none => now
  let err :=
    match error with
    | some e => if e = "" then none else some e
    | none => none
  Store.update store jobId (fun a =>
    { a with statusFile := some { status := status, created_at := createdAt, updated_at := now, error := err } })

/-- Input CSV write, from `GCSService.writeCSVContent`. -/
def writeCSVContent (store : Store) (jobId : String) (csvContent : String) : Store :=
  Store.update store jobId (fun a => { a with inputCSV := some csvContent })

/-- Metadata write, from `GCSService.writeMetadata`. -/
def writeMetadata (store : Store) (jobId : String) (params : MetadataParams) (now : String) : Store :=
  Store.update store jobId (fun a => { a with metadataFile := some { params := params, created_at := now } })

/-- Results write, from `GCSService.writeResults`. -/
def writeResults (store : Store) (jobId : String) (results : ResultsData) : Store :=
  Store.update store jobId (fun a => { a with resultsFile := some results })

/-- Derived CSV artifact write, from `GCSService.writeCSVOutput`. -/
def writeCSVOutput (store : Store) (jobId : String) (csvContent : String) : Store :=
  Store.update store jobId (fun a => { a with outputCSV := some csvContent })

/-- Request payload, from the `TestCaseRequest` interface in
`mock-testcase-generator.ts`. -/
structure TestCaseRequest where
  csv_mapping : String
  batch_number : String
  user_id : String
  github_url : Option String
  session_id : Option String
  batch_size : Option Nat
deriving DecidableEq

/-- Synchronous part of `MockTestCaseGenerator.generateTestCases`, executed
and awaited before the job id is returned: pending status, input CSV and
metadata are persisted in that order. -/
def generateTestCasesSync (store : Store) (jobId : String) (request : TestCaseRequest)
    (tPending tMeta : String) : Store :=
  let s1 := writeJobStatus store jobId "pending" none tPending
  let s2 := writeCSVContent s1 jobId request.csv_mapping
  let metadata : MetadataParams :=
    { batch_number := some request.batch_number
      user_id := some request.user_id
      csv_length := some request.csv_mapping.length
      github_url := request.github_url
      session_id := request.session_id
      batch_size := request.batch_size }
  writeMetadata s2 jobId metadata tMeta

/-- The claim C1: immediately after the synchronous part of submit has run,
a status poll of the returned job id yields a record with status `pending`,
never a not-found answer. -/
theorem c1_pending_visible_after_submit (store : Store) (jobId : String)
    (request : TestCaseRequest) (tPending tMeta : String) :
    (readJobStatus (generateTestCasesSync store jobId request tPending tMeta) jobId).map
        (fun st => st.status) = some "pending" := by
  unfold generateTestCasesSync writeMetadata writeCSVContent writeJobStatus readJobStatus Store.update
  simp

/-- Failure injection environment for the background task: each awaited
step of the `setImmediate` body may reject with a message. -/
structure BgEnv where
  processingFault : Option String
  generationFault : Option String
  resultsFault : Option String
  outputFault : Option String
  completedFault : Option String
deriving DecidableEq

/-- One awaited step of the background task: it either rejects with its
injected message, leaving the store as it was, or performs its effect. -/
def step (s : Store) (fault : Option String) (f : Store → Store) :
    Except (String × Store) Store :=
  match fault with
  | some m => Except.error (m, s)
  | none => Except.ok (f s)

/-- Body of the `try` block of the `setImmediate` background task in
`MockTestCaseGenerator.generateTestCases`: mark processing, parse the CSV
and generate the test cases, write the results, write the derived CSV, mark
completed. -/
def bgBody (store : Store) (jobId : String) (request : TestCaseRequest) (env : BgEnv)
    (tProc tGen tDone : String) : Except (String × Store) Store := do
  let s1 ← step store env.processingFault
    (fun s => writeJobStatus s jobId "processing" none tProc)
  let s2 ← step s1 env.generationFault id
  let csvRows := parseCSV request.csv_mapping
  let testCases := generateTestCasesFromCSV csvRows request.batch_number
  let response : ResultsData :=
    { TestCases := testCases
      StatisticalSummary := calculateStatistics testCases csvRows
      github_url := request.github_url
      generated_at := tGen }
  let s3 ← step s2 env.resultsFault (fun s => writeResults s jobId response)
  let s4 ← step s3 env.outputFault (fun s => writeCSVOutput s jobId (generateCSV testCases))
  let s5 ← step s4 env.completedFault (fun s => writeJobStatus s jobId "completed" none tDone)
  return s5

/-- The whole background task including its `catch` handler: a rejection at
any step is caught and the failed status with the captured message is
persisted; the task always returns a store and never rethrows. -/
def runBackground (store : Store) (jobId : String) (request : TestCaseRequest) (env : BgEnv)
    (tProc tGen tDone tFail : String) : Store :=
  match bgBody store jobId request env tProc tGen tDone with
  | Except.ok s => s
  | Except.error (msg, s) => writeJobStatus s jobId "failed" (some msg) tFail

/-- The first injected failure in step order, if any. -/
def firstFault (env : BgEnv) : Option String :=
  env.processingFault.orElse (fun _ =>
    env.generationFault.orElse (fun _ =>
      env.resultsFault.orElse (fun _ =>
        env.outputFault.orElse (fun _ => env.completedFault))))

/-- The claim C2: the background task always terminates with a persisted
terminal status; without failures it persists `completed`, and an exception
thrown at any step is caught and turned into a persisted `failed` status
carrying the exception's message. -/
theorem c2_background_task_contains_failures (store : Store) (jobId : String)
    (request : TestCaseRequest) (env : BgEnv) (tProc tGen tDone tFail : String) :
    (∃ st, readJobStatus (runBackground store jobId request env tProc tGen tDone tFail) jobId
        = some st ∧ (st.status = "completed" ∨ st.status = "failed")) ∧
    (firstFault env = none →
      (readJobStatus (runBackground store jobId request env tProc tGen tDone tFail) jobId).map
          (fun st => st.status) = some "completed") ∧
    (∀ m, firstFault env = some m → m ≠ "" →
      (readJobStatus (runBackground store jobId request env tProc tGen tDone tFail) jobId).map
          (fun st => st.status) = some "failed" ∧
      (readJobStatus (runBackground store jobId request env tProc tGen tDone tFail) jobId).bind
          (fun st => st.error) = some m) := by
  obtain ⟨f1, f2, f3, f4, f5⟩ := env
  cases f1 with
  | some m1 =>
    refine ⟨?_, ?_, ?_⟩
    · simp [runBackground, bgBody, step, bind, Except.bind, pure, Except.pure, readJobStatus, writeJobStatus, Store.update]
    · intro h; simp [firstFault, Option.orElse] at h
    · intro m hm hne
      simp only [firstFault, Option.orElse, Option.some.injEq] at hm
      subst hm
      constructor <;>
        simp [runBackground, bgBody, step, bind, Except.bind, pure, Except.pure, readJobStatus, writeJobStatus, Store.update, hne]
  | none =>
    cases f2 with
    | some m2 =>
      refine ⟨?_, ?_, ?_⟩
      · simp [runBackground, bgBody, step, bind, Except.bind, pure, Except.pure, readJobStatus, writeJobStatus, Store.update]
      · intro h; simp [firstFault, Option.orElse] at h
      · intro m hm hne
        simp only [firstFault, Option.orElse, Option.some.injEq] at hm
        subst hm
        constructor <;>
          simp [runBackground, bgBody, step, bind, Except.bind, pure, Except.pure, readJobStatus, writeJobStatus, Store.update, hne]
    | none =>
      cases f3 with
      | some m3 =>
        refine ⟨?_, ?_, ?_⟩
        · simp [runBackground, bgBody, step, bind, Except.bind, pure, Except.pure, readJobStatus, writeJobStatus, Store.update]
        · intro h; simp [firstFault, Option.orElse] at h
        · intro m hm hne
          simp only [firstFault, Option.orElse, Option.some.injEq] at hm
          subst hm
          constructor <;>
            simp [runBackground, bgBody, step, bind, Except.bind, pure, Except.pure, readJobStatus, writeJobStatus, writeResults,
              Store.update, hne]
      | none =>
        cases f4 with
        | some m4 =>
          refine ⟨?_, ?_, ?_⟩
          · simp [runBackground, bgBody, step, bind, Except.bind, pure, Except.pure, readJobStatus, writeJobStatus, writeResults,
              Store.update]
          · intro h; simp [firstFault, Option.orElse] at h
          · intro m hm hne
            simp only [firstFault, Option.orElse, Option.some.injEq] at hm
            subst hm
            constructor <;>
              simp [runBackground, bgBody, step, bind, Except.bind, pure, Except.pure, readJobStatus, writeJobStatus, writeResults,
                writeCSVOutput, Store.update, hne]
        | none =>
          cases f5 with
          | some m5 =>
            refine ⟨?_, ?_, ?_⟩
            · simp [runBackground, bgBody, step, bind, Except.bind, pure, Except.pure, readJobStatus, writeJobStatus, writeResults,
                writeCSVOutput, Store.update]
            · intro h; simp [firstFault, Option.orElse] at h
            · intro m hm hne
              simp only [firstFault, Option.orElse, Option.some.injEq] at hm
              subst hm
              constructor <;>
                simp [runBackground, bgBody, step, bind, Except.bind, pure, Except.pure, readJobStatus, writeJobStatus, writeResults,
                  writeCSVOutput, Store.update, hne]
          | none =>
            refine ⟨?_, ?_, ?_⟩
            · simp [runBackground, bgBody, step, bind, Except.bind, pure, Except.pure, readJobStatus, writeJobStatus, writeResults,
                writeCSVOutput, Store.update]
            · intro _
              simp [runBackground, bgBody, step, bind, Except.bind, pure, Except.pure, readJobStatus, writeJobStatus, writeResults,
                writeCSVOutput, Store.update]
            · intro m hm
              simp [firstFault, Option.orElse] at hm

/-- Witness instantiating the C2 claim with a failure injected at the
results-write step. -/
theorem c2_background_task_contains_failures_witness :
    (readJobStatus (runBackground (fun _ => emptyArtifacts) "job1"
        ⟨"csv", "001", "u1", none, none, none⟩ ⟨none, none, some "boom", none, none⟩
        "t1" "t2" "t3" "t4") "job1").map (fun st => st.status) = some "failed" ∧
    (readJobStatus (runBackground (fun _ => emptyArtifacts) "job1"
        ⟨"csv", "001", "u1", none, none, none⟩ ⟨none, none, some "boom", none, none⟩
        "t1" "t2" "t3" "t4") "job1").bind (fun st => st.error) = some "boom" :=
  (c2_background_task_contains_failures (fun _ => emptyArtifacts) "job1"
      ⟨"csv", "001", "u1", none, none, none⟩ ⟨none, none, some "boom", none, none⟩
      "t1" "t2" "t3" "t4").2.2 "boom" (by decide) (by decide)

/-- A sequence of status writes for one job: each entry is the status
string, the optional error message, and the write time. -/
def applyStatusWrites (store : Store) (jobId : String) :
    List (String × Option String × String) → Store
  | [] => store
  | (st, err, t) :: rest => applyStatusWrites (writeJobStatus store jobId st err t) jobId rest

theorem writeJobStatus_frame (store : Store) (jobId status : String)
    (err : Option String) (now : String) :
    ((writeJobStatus store jobId status err now) jobId).inputCSV = (store jobId).inputCSV ∧
    ((writeJobStatus store jobId status err now) jobId).metadataFile = (store jobId).metadataFile ∧
    ((writeJobStatus store jobId status err now) jobId).resultsFile = (store jobId).resultsFile ∧
    ((writeJobStatus store jobId status err now) jobId).outputCSV = (store jobId).outputCSV := by
  unfold writeJobStatus Store.update
  simp

theorem applyStatusWrites_frame (jobId : String)
    (ws : List (String × Option String × String)) :
    ∀ store : Store,
      ((applyStatusWrites store jobId ws) jobId).inputCSV = (store jobId).inputCSV ∧
      ((applyStatusWrites store jobId ws) jobId).metadataFile = (store jobId).metadataFile ∧
      ((applyStatusWrites store jobId ws) jobId).resultsFile = (store jobId).resultsFile ∧
      ((applyStatusWrites store jobId ws) jobId).outputCSV = (store jobId).outputCSV := by
  induction ws with
  | nil => intro store; exact ⟨rfl, rfl, rfl, rfl⟩
  | cons w rest ih =>
    intro store
    obtain ⟨st, err, t⟩ := w
    have h1 := ih (writeJobStatus store jobId st err t)
    have h2 := writeJobStatus_frame store jobId st err t
    exact ⟨h1.1.trans h2.1, h1.2.1.trans h2.2.1, h1.2.2.1.trans h2.2.2.1, h1.2.2.2.trans h2.2.2.2⟩

theorem applyStatusWrites_created_updated (jobId : String) :
    ∀ (ws : List (String × Option String × String)) (store : Store) (st0 : StatusData),
      (store jobId).statusFile = some st0 → st0.created_at ≠ "" →
      ∃ st, ((applyStatusWrites store jobId ws) jobId).statusFile = some st ∧
        st.created_at = st0.created_at ∧
        st.updated_at = ((ws.map (fun x => x.2.2)).getLastD st0.updated_at) := by
  intro ws
  induction ws with
  | nil =>
    intro store st0 h0 _
    exact ⟨st0, h0, rfl, rfl⟩
  | cons w rest ih =>
    intro store st0 h0 hne
    obtain ⟨sts, err, t⟩ := w
    have hwrite : ((writeJobStatus store jobId sts err t) jobId).statusFile
        = some { status := sts, created_at := st0.created_at, updated_at := t,
                 error := match err with | some e => if e = "" then none else some e | none => none } := by
      unfold writeJobStatus readJobStatus Store.update
      simp [h0, hne]
    obtain ⟨st, hst, hcr, hup⟩ := ih (writeJobStatus store jobId sts err t) _ hwrite hne
    refine ⟨st, hst, hcr, ?_⟩
    rw [hup]
    simp only [List.map_cons, List.getLastD_cons]

/-- The claim C8: over any sequence of status writes for a job, the first
write fixes `created_at` and later writes never change it, `updated_at` is
the time of the last write, and status writes leave the job's input,
metadata, results and output artifacts untouched. -/
theorem c8_created_at_immutable_frame (store : Store) (jobId : String)
    (w : String × Option String × String) (ws : List (String × Option String × String))
    (h0 : (store jobId).statusFile = none) (ht : w.2.2 ≠ "") :
    (∃ st, ((applyStatusWrites store jobId (w :: ws)) jobId).statusFile = some st ∧
      st.created_at = w.2.2 ∧
      st.updated_at = ((ws.map (fun x => x.2.2)).getLastD w.2.2)) ∧
    ((applyStatusWrites store jobId (w :: ws)) jobId).inputCSV = (store jobId).inputCSV ∧
    ((applyStatusWrites store jobId (w :: ws)) jobId).metadataFile = (store jobId).metadataFile ∧
    ((applyStatusWrites store jobId (w :: ws)) jobId).resultsFile = (store jobId).resultsFile ∧
    ((applyStatusWrites store jobId (w :: ws)) jobId).outputCSV = (store jobId).outputCSV := by
  obtain ⟨sts, err, t⟩ := w
  have hts : t ≠ "" := ht
  clear ht
  constructor
  · have hwrite : ((writeJobStatus store jobId sts err t) jobId).statusFile
        = some { status := sts, created_at := t, updated_at := t,
                 error := match err with | some e => if e = "" then none else some e | none => none } := by
      unfold writeJobStatus readJobStatus Store.update
      simp [h0]
    obtain ⟨st, hst, hcr, hup⟩ :=
      applyStatusWrites_created_updated jobId ws (writeJobStatus store jobId sts err t) _ hwrite hts
    exact ⟨st, hst, hcr, hup⟩
  · exact applyStatusWrites_frame jobId ((sts, err, t) :: ws) store

/-- Witness instantiating the C8 claim with a pending write followed by a
completed write. -/
theorem c8_created_at_immutable_frame_witness :
    (∃ st, ((applyStatusWrites (fun _ => emptyArtifacts) "job1"
        [("pending", none, "t1"), ("completed", none, "t2")]) "job1").statusFile = some st ∧
      st.created_at = ("pending", (none : Option String), "t1").2.2 ∧
      st.updated_at = (([("completed", (none : Option String), "t2")].map (fun x => x.2.2)).getLastD
        ("pending", (none : Option String), "t1").2.2)) ∧
    ((applyStatusWrites (fun _ => emptyArtifacts) "job1"
        [("pending", none, "t1"), ("completed", none, "t2")]) "job1").inputCSV
      = ((fun _ => emptyArtifacts : Store) "job1").inputCSV ∧
    ((applyStatusWrites (fun _ => emptyArtifacts) "job1"
        [("pending", none, "t1"), ("completed", none, "t2")]) "job1").metadataFile
      = ((fun _ => emptyArtifacts : Store) "job1").metadataFile ∧
    ((applyStatusWrites (fun _ => emptyArtifacts) "job1"
        [("pending", none, "t1"), ("completed", none, "t2")]) "job1").resultsFile
      = ((fun _ => emptyArtifacts : Store) "job1").resultsFile ∧
    ((applyStatusWrites (fun _ => emptyArtifacts) "job1"
        [("pending", none, "t1"), ("completed", none, "t2")]) "job1").outputCSV
      = ((fun _ => emptyArtifacts : Store) "job1").outputCSV :=
  c8_created_at_immutable_frame (fun _ => emptyArtifacts) "job1"
    ("pending", none, "t1") [("completed", none, "t2")] rfl (by decide)

/-- Responses of `GET /api/results/:jobId`: 404 job not found, 400 job not
completed yet (reporting the current status), 500 results unreadable, or
the 200 payload. -/
inductive ResultsResponse where
  | notFound
  | notReady (currentStatus : String)
  | readFailed
  | ok (testCases : List TestCase) (summary : StatisticalSummary)
      (githubUrl : Option String) (downloadUrl : String) (generatedAt : String)
deriving DecidableEq

/-- The `GET /api/results/:jobId` handler from `routes.ts`: not-found when
no status record exists, not-ready with the current status when the status
is not `completed`, otherwise the results payload. -/
def resultsEndpoint (store : Store) (jobId : String) : ResultsResponse :=
  match readJobStatus store jobId with
  | none => ResultsResponse.notFound
  | some st =>
    if st.status ≠ "completed" then ResultsResponse.notReady st.status
    else
      match readResults store jobId with
      | none => ResultsResponse.readFailed
      | some r =>
        ResultsResponse.ok r.TestCases r.StatisticalSummary r.github_url
          ("/api/download/" ++ jobId) r.generated_at

/-- The claim C3: the results operation distinguishes not-found from
not-ready; an unknown job id gives not-found, an existing job that is not
completed (pending, processing or failed alike) gives a distinct not-ready
answer reporting the current status, and the results payload is returned
only when the status is `completed`. -/
theorem c3_results_not_found_vs_not_ready (store : Store) (jobId : String) :
    (readJobStatus store jobId = none → resultsEndpoint store jobId = ResultsResponse.notFound) ∧
    (∀ st, readJobStatus store jobId = some st → st.status ≠ "completed" →
        resultsEndpoint store jobId = ResultsResponse.notReady st.status) ∧
    (∀ tcs summary gh dl gen,
        resultsEndpoint store jobId = ResultsResponse.ok tcs summary gh dl gen →
        ∃ st r, readJobStatus store jobId = some st ∧ st.status = "completed" ∧
          readResults store jobId = some r ∧ tcs = r.TestCases) := by
  refine ⟨?_, ?_, ?_⟩
  · intro h
    simp [resultsEndpoint, h]
  · intro st h hne
    simp [resultsEndpoint, h, hne]
  · intro tcs summary gh dl gen h
    unfold resultsEndpoint at h
    cases hs : readJobStatus store jobId with
    | none =>
      simp [hs] at h
    | some st =>
      simp only [hs] at h
      by_cases hc : st.status = "completed"
      · rw [if_neg (fun hne => hne hc)] at h
        cases hr : readResults store jobId with
        | none =>
          simp [hr] at h
        | some r =>
          simp only [hr] at h
          refine ⟨st, r, rfl, hc, rfl, ?_⟩
          cases h
          rfl
      · rw [if_pos hc] at h
        simp at h

/-- Witness instantiating the C3 claim: a pending job answers not-ready
with its current status, not not-found. -/
theorem c3_results_not_found_vs_not_ready_witness :
    resultsEndpoint
        (fun j => if j = "job1" then
          { emptyArtifacts with statusFile := some ⟨"pending", "t1", "t1", none⟩ }
        else emptyArtifacts) "job1"
      = ResultsResponse.notReady "pending" :=
  (c3_results_not_found_vs_not_ready
      (fun j => if j = "job1" then
        { emptyArtifacts with statusFile := some ⟨"pending", "t1", "t1", none⟩ }
      else emptyArtifacts) "job1").2.1
    ⟨"pending", "t1", "t1", none⟩ (by decide) (by decide)

/-- Shape of `githubService.fetchCSVFromGitHub` results, treated as an
external capability: a success flag, optional content, optional error. -/
structure FetchResult where
  success : Bool
  content : Option String
  error : Option String
deriving DecidableEq

/-- Responses of `POST /api/ccda-gen-test-cases`: 500 on a schema
validation throw, 400 when the GitHub fetch fails or yields no content,
400 when no CSV content is available, or the 202-style accepted payload
with the job id and the polling URLs. -/
inductive CcdaResponse where
  | serverError
  | fetchError (details : Option String)
  | noCsvContent
  | accepted (jobId statusUrl resultsUrl : String)
deriving DecidableEq

/-- Tail of the submit handler shared by both ingestion paths: reject when
the resolved CSV content is empty, otherwise run the synchronous part of
`generateTestCases` and answer with the job id and URLs. -/
def finishSubmit (store : Store) (req : TestCaseRequest) (csvContent : String)
    (jobId tPending tMeta : String) : CcdaResponse × Store :=
  if csvContent = "" then (CcdaResponse.noCsvContent, store)
  else
    (CcdaResponse.accepted jobId ("/api/status/" ++ jobId) ("/api/results/" ++ jobId),
     generateTestCasesSync store jobId { req with csv_mapping := csvContent } tPending tMeta)

/-- The `POST /api/ccda-gen-test-cases` handler from `routes.ts`. The zod
schema requires `batch_number` and `user_id` to be non-empty, a parse throw
is caught as a 500 response; a truthy `github_url` routes through the
fetcher, whose failure or empty content is a synchronous 400; the resolved
CSV must be non-empty. The `fetch` argument abstracts the external GitHub
fetcher, and `jobId` the uuid allocated for this submission. -/
def ccdaGenHandler (store : Store) (req : TestCaseRequest)
    (fetch : String → FetchResult) (jobId tPending tMeta : String) : CcdaResponse × Store :=
  if req.batch_number.length < 1 ∨ req.user_id.length < 1 then
    (CcdaResponse.serverError, store)
  else
    let csv0 := req.csv_mapping
    if (req.github_url.getD "") ≠ "" then
      let r := fetch (req.github_url.getD "")
      if r.success = false ∨ r.content.getD "" = "" then
        (CcdaResponse.fetchError r.error, store)
      else finishSubmit store req (r.content.getD "") jobId tPending tMeta
    else finishSubmit store req csv0 jobId tPending tMeta

/-- The claim C4: a submission that fails validation — empty required
fields, a failing remote CSV fetch, or no CSV content from either source —
is answered synchronously with an error, and the store is left exactly as
it was: no job is created and no writes happen for any job id. -/
theorem c4_validation_failure_writes_nothing (store : Store) (req : TestCaseRequest)
    (fetch : String → FetchResult) (jobId tPending tMeta : String) :
    (req.batch_number.length < 1 ∨ req.user_id.length < 1 →
        ccdaGenHandler store req fetch jobId tPending tMeta = (CcdaResponse.serverError, store)) ∧
    (¬(req.batch_number.length < 1 ∨ req.user_id.length < 1) →
      (req.github_url.getD "") ≠ "" →
      (fetch (req.github_url.getD "")).success = false ∨
        (fetch (req.github_url.getD "")).content.getD "" = "" →
        ccdaGenHandler store req fetch jobId tPending tMeta
          = (CcdaResponse.fetchError (fetch (req.github_url.getD "")).error, store)) ∧
    (¬(req.batch_number.length < 1 ∨ req.user_id.length < 1) →
      (req.github_url.getD "") = "" →
      req.csv_mapping = "" →
        ccdaGenHandler store req fetch jobId tPending tMeta
          = (CcdaResponse.noCsvContent, store)) := by
  refine ⟨?_, ?_, ?_⟩
  · intro h
    unfold ccdaGenHandler
    rw [if_pos h]
  · intro hv hg hf
    unfold ccdaGenHandler
    rw [if_neg hv, if_pos hg, if_pos hf]
  · intro hv hg hcsv
    unfold ccdaGenHandler finishSubmit
    rw [if_neg hv, if_neg (by simp [hg]), if_pos hcsv]

/-- Witness instantiating the C4 claim on a request with no CSV source at
all. -/
theorem c4_validation_failure_writes_nothing_witness :
    ccdaGenHandler (fun _ => emptyArtifacts) ⟨"", "001", "u1", none, none, none⟩
        (fun _ => ⟨false, none, some "err"⟩) "job1" "t1" "t2"
      = (CcdaResponse.noCsvContent, (fun _ => emptyArtifacts : Store)) :=
  (c4_validation_failure_writes_nothing (fun _ => emptyArtifacts)
      ⟨"", "001", "u1", none, none, none⟩ (fun _ => ⟨false, none, some "err"⟩)
      "job1" "t1" "t2").2.2 (by decide) (by decide) (by decide)

end CDR
